import Mathlib

/-!
Verification development for the EAFC26 meta-builder squad-optimisation core.

The definitions below are a shallow embedding of the Python sources:
  * `src/optimizer/chemistry.py` — the reference Chemistry Evaluator
    (`ChemistryCalculator`);
  * `src/optimizer/solver.py` — the Candidate Provider
    (`SquadOptimizer.get_candidates_for_position`), the CP-SAT model's
    chemistry encoding (`_add_chemistry_constraints`) and the solution
    extraction (`_extract_solution`).

Python `None`-able integer attributes are embedded as `Option Nat`;
floating-point metarating scores are embedded as `ℚ` (only ordering,
scaling by 100 and truncation matter to the claims, all exact on `ℚ`).
-/

/-- A player catalogue record, with the fields read by the optimisation core.
`club_ea_id` / `league_ea_id` / `nation_ea_id` are `Option Nat` because in the
source they are dictionary entries that may be absent or `None` (`player.get`
returns `None` in both cases). `metaratings` is the per-position score map
`metaratings.{pos}.score`: the outer `Option` (via association-list lookup) is
presence of the position key, the inner `Option ℚ` is presence of the `score`
key inside it. -/
structure Player where
  ea_id : Nat
  name : String
  club_ea_id : Option Nat
  league_ea_id : Option Nat
  nation_ea_id : Option Nat
  is_icon : Bool
  is_hero : Bool
  market_price : Option Nat
  futbin_price : Option Nat
  metaratings : List (String × Option ℚ)
deriving DecidableEq

/-- `count_double_for = None` in the Python call sites (club counting):
no card type counts double. -/
def noDouble : Player → Bool := fun _ => false

/-- Embeds `ChemistryCalculator.count_teammates` (chemistry.py lines 46–70):
for every squad member whose `attr` value equals `target_value` (Python `==`,
so `None == None` holds, embedded as equality of `Option Nat`), add 2 when
`count_double_for` holds of that member, else 1. -/
def count_teammates (squad : List Player) (attr : Player → Option Nat)
    (target_value : Option Nat) (count_double_for : Player → Bool) : Nat :=
  match squad with
  | [] => 0
  | player :: rest =>
      (if attr player = target_value then
        (if count_double_for player then 2 else 1) else 0)
        + count_teammates rest attr target_value count_double_for

/-- The loop of `get_chemistry_from_threshold` (chemistry.py lines 83–90):
walk the threshold table in ascending key order, keeping the points of the
last threshold that `count` reaches, and stop at the first miss. -/
def thresholdLoop (count chem : Nat) : List (Nat × Nat) → Nat
  | [] => chem
  | (threshold, points) :: rest =>
      if threshold ≤ count then thresholdLoop count points rest else chem

/-- Embeds `ChemistryCalculator.get_chemistry_from_threshold`
(chemistry.py lines 72–91); the Python iterates `sorted(thresholds.items())`,
so the `List (Nat × Nat)` argument is the threshold table in ascending key
order. -/
def get_chemistry_from_threshold (count : Nat) (thresholds : List (Nat × Nat)) : Nat :=
  thresholdLoop count 0 thresholds

/-- `ChemistryCalculator.THRESHOLDS['club']` (chemistry.py lines 25–29),
as the ascending item list that the Python loop iterates. -/
def clubThresholds : List (Nat × Nat) := [(2, 1), (4, 2), (7, 3)]

/-- `ChemistryCalculator.THRESHOLDS['league']` (chemistry.py lines 30–34). -/
def leagueThresholds : List (Nat × Nat) := [(3, 1), (5, 2), (8, 3)]

/-- `ChemistryCalculator.THRESHOLDS['nation']` (chemistry.py lines 35–39). -/
def nationThresholds : List (Nat × Nat) := [(2, 1), (5, 2), (8, 3)]

/-- Embeds `ChemistryCalculator.calculate_player_chemistry`
(chemistry.py lines 93–140): icons and heroes get 3 outright; otherwise the
three affiliation counts (league doubling heroes, nation doubling icons) are
pushed through their threshold tables, summed and capped at 3. -/
def calculate_player_chemistry (player : Player) (squad : List Player) : Nat :=
  if player.is_icon || player.is_hero then 3
  else
    let club_count := count_teammates squad (fun p => p.club_ea_id) player.club_ea_id noDouble
    let club_chem := get_chemistry_from_threshold club_count clubThresholds
    let league_count := count_teammates squad (fun p => p.league_ea_id) player.league_ea_id
      (fun p => p.is_hero)
    let league_chem := get_chemistry_from_threshold league_count leagueThresholds
    let nation_count := count_teammates squad (fun p => p.nation_ea_id) player.nation_ea_id
      (fun p => p.is_icon)
    let nation_chem := get_chemistry_from_threshold nation_count nationThresholds
    min (club_chem + league_chem + nation_chem) 3

/-- Embeds `ChemistryCalculator.calculate_squad_chemistry`
(chemistry.py lines 142–161): 0 unless the squad has exactly 11 members
(`if not squad or len(squad) != 11`, and an empty list has length ≠ 11),
else the sum of the per-player chemistries. -/
def calculate_squad_chemistry (squad : List Player) : Nat :=
  if squad.length ≠ 11 then 0
  else (squad.map (fun p => calculate_player_chemistry p squad)).sum

/-- Python truthiness of an optional integer attribute: `None` and `0` are
falsy, every other integer is truthy (used by the guards
`if player.get('club_ea_id'):` and `if club_id and club_id in club_count`
in solver.py). -/
def pyTruthy : Option Nat → Bool
  | none => false
  | some n => n != 0

/-- The id sets collected in `_add_chemistry_constraints`
(solver.py lines 359–371): one id per candidate whose attribute is truthy.
These are the keys of the `club_count` / `league_count` / `nation_count`
count-variable dictionaries (solver.py lines 380–410); membership is all
that the model build reads of them. -/
def activeIds (candidates : List (List Player)) (attr : Player → Option Nat) : List Nat :=
  candidates.flatten.filterMap
    (fun p => match attr p with
      | some c => if c != 0 then some c else none
      | none => none)

/-- `all_clubs` (solver.py lines 364–367). -/
def allClubs (candidates : List (List Player)) : List Nat :=
  activeIds candidates (fun p => p.club_ea_id)

/-- `all_leagues` (solver.py lines 368–369). -/
def allLeagues (candidates : List (List Player)) : List Nat :=
  activeIds candidates (fun p => p.league_ea_id)

/-- `all_nations` (solver.py lines 370–371). -/
def allNations (candidates : List (List Player)) : List Nat :=
  activeIds candidates (fun p => p.nation_ea_id)

/-- Value of the count variable `club_count[c]` in a CP-SAT solution: the
constraint `club_count[c] == Σ x[s,i]` over candidates with `club_ea_id == c`
(solver.py lines 380–388) makes it the number of selected players whose club
is `c`, since exactly one candidate is selected per slot. -/
def solverClubCount (lineup : List Player) (c : Nat) : Nat :=
  (lineup.map (fun p => if p.club_ea_id = some c then 1 else 0)).sum

/-- Value of `league_count[l]` in a solution (solver.py lines 390–399):
selected heroes of league `l` contribute with multiplier 2. -/
def solverLeagueCount (lineup : List Player) (l : Nat) : Nat :=
  (lineup.map (fun p =>
    if p.league_ea_id = some l then (if p.is_hero then 2 else 1) else 0)).sum

/-- Value of `nation_count[n]` in a solution (solver.py lines 401–410):
selected icons of nation `n` contribute with multiplier 2. -/
def solverNationCount (lineup : List Player) (n : Nat) : Nat :=
  (lineup.map (fun p =>
    if p.nation_ea_id = some n then (if p.is_icon then 2 else 1) else 0)).sum

/-- The club `AddElement` lookup table (solver.py line 442). -/
def clubSolverTable : List Nat := [0, 0, 1, 1, 2, 2, 2, 3, 3, 3, 3, 3]

/-- The league `AddElement` lookup table (solver.py line 449):
`[0, 0, 0, 1, 1, 2, 2, 2, 3] + [3]*14`. -/
def leagueSolverTable : List Nat := [0, 0, 0, 1, 1, 2, 2, 2, 3] ++ List.replicate 14 3

/-- The nation `AddElement` lookup table (solver.py line 456):
`[0, 0, 1, 1, 1, 2, 2, 2, 3] + [3]*14`. -/
def nationSolverTable : List Nat := [0, 0, 1, 1, 1, 2, 2, 2, 3] ++ List.replicate 14 3

/-- Value of the auxiliary `club_chem` variable for one candidate in a
solution (solver.py lines 438–444): if the candidate's `club_ea_id` is truthy
and is a key of `club_count`, the element constraint pins `club_chem` to the
table entry at the club count; otherwise the model adds `club_chem == 0`. -/
def solverClubChem (candidates : List (List Player)) (lineup : List Player)
    (p : Player) : Nat :=
  match p.club_ea_id with
  | some c => if c ≠ 0 ∧ c ∈ allClubs candidates then
      clubSolverTable.getD (solverClubCount lineup c) 0 else 0
  | none => 0

/-- Value of `league_chem` for one candidate in a solution
(solver.py lines 446–451). -/
def solverLeagueChem (candidates : List (List Player)) (lineup : List Player)
    (p : Player) : Nat :=
  match p.league_ea_id with
  | some l => if l ≠ 0 ∧ l ∈ allLeagues candidates then
      leagueSolverTable.getD (solverLeagueCount lineup l) 0 else 0
  | none => 0

/-- Value of `nation_chem` for one candidate in a solution
(solver.py lines 453–458). -/
def solverNationChem (candidates : List (List Player)) (lineup : List Player)
    (p : Player) : Nat :=
  match p.nation_ea_id with
  | some n => if n ≠ 0 ∧ n ∈ allNations candidates then
      nationSolverTable.getD (solverNationCount lineup n) 0 else 0
  | none => 0

/-- Value of the per-slot chemistry variable `player_chemistry[pos]` in a
solution, for the candidate `p` that is selected in that slot
(solver.py lines 416–468): 3 for icons/heroes (line 425); otherwise
`min(club_chem + league_chem + nation_chem, 3)` via the `total`, `capped_chem`
and `AddMinEquality` constraints (lines 460–468), enforced when `x[s,c] = 1`. -/
def solverCandChem (candidates : List (List Player)) (lineup : List Player)
    (p : Player) : Nat :=
  if p.is_icon || p.is_hero then 3
  else
    min (solverClubChem candidates lineup p + solverLeagueChem candidates lineup p
      + solverNationChem candidates lineup p) 3

/-- Value of `total_chemistry` in a solution (solver.py lines 470–472): the
sum of the 11 slot chemistry variables, i.e. of `solverCandChem` over the
selected lineup. The hard constraint (line 473) is
`min_chemistry ≤ solverSquadChem candidates lineup`. -/
def solverSquadChem (candidates : List (List Player)) (lineup : List Player) : Nat :=
  (lineup.map (solverCandChem candidates lineup)).sum

/-- A candidate record as returned by
`SquadOptimizer.get_candidates_for_position` (solver.py lines 83–115): the
catalogue record together with the keys the loop writes into it
(`is_owned`, `is_required`, `metarating`, `price`). -/
structure Cand where
  player : Player
  is_owned : Bool
  is_required : Bool
  metarating : ℚ
  price : Nat
deriving DecidableEq

/-- The dotted Mongo path `metaratings.{position}.score`: `some sc` when the
position key exists and carries a `score` field. -/
def scoreOf (p : Player) (position : String) : Option ℚ :=
  match p.metaratings.lookup position with
  | some (some sc) => some sc
  | _ => none

/-- `player['metarating'] = metaratings.get(position, {}).get('score', 0.0)`
(solver.py lines 90–92). -/
def candMetarating (p : Player) (position : String) : ℚ :=
  match p.metaratings.lookup position with
  | some (some sc) => sc
  | _ => 0

/-- The Mongo query built in `get_candidates_for_position`
(solver.py lines 56–75), split into its pieces: the base query requires
`metaratings.{position}.score ≥ max(min_metarating, 0.01)` (`scoreGate`) and,
under `owned_only`, `ea_id ∈ owned_player_ids`; when the include set is
non-empty the query is `$or`-ed with "`metaratings.{position}` exists and
`ea_id ∈ include_players`". -/
def scoreGate (position : String) (min_metarating : ℚ) (p : Player) : Bool :=
  match scoreOf p position with
  | some sc => decide (max min_metarating (1 / 100) ≤ sc)
  | none => false

/-- `base_query` (solver.py lines 56–61). -/
def baseQuery (position : String) (min_metarating : ℚ) (owned_only : Bool)
    (owned_player_ids : List Nat) (p : Player) : Bool :=
  scoreGate position min_metarating p &&
    (!owned_only || owned_player_ids.contains p.ea_id)

def queryMatch (position : String) (min_metarating : ℚ) (owned_only : Bool)
    (owned_player_ids include_players : List Nat) (p : Player) : Bool :=
  if include_players.isEmpty then
    baseQuery position min_metarating owned_only owned_player_ids p
  else
    baseQuery position min_metarating owned_only owned_player_ids p ||
      ((p.metaratings.lookup position).isSome && include_players.contains p.ea_id)

/-- One admissible realisation of
`.sort(f'metaratings.{position}.score', -1)` (solver.py line 79):
`p` may come no later than `q` when `q`'s score key is ≤ `p`'s, with a
missing score sorting below every present one (Mongo places null/missing
last in a descending sort). MongoDB promises nothing about the relative
order of equal keys, so the model realises the sort as a stable
insertion sort over the snapshot order — one behaviour the store is
allowed to produce. -/
def scoreLeDesc (position : String) (p q : Player) : Bool :=
  match scoreOf q position, scoreOf p position with
  | none, _ => true
  | some _, none => false
  | some b, some a => decide (b ≤ a)

/-- The price-resolution loop body of `get_candidates_for_position`
(solver.py lines 85–114), for one fetched record: owned players are accepted
at price 0; required players are accepted at `market_price` when present and
otherwise at `futbin_price` defaulting to 1 000 000; all other players are
accepted at `market_price` and rejected (`none`) when it is absent. -/
def resolveCandidate (owned_player_ids include_players : List Nat) (position : String)
    (player : Player) : Option Cand :=
  let is_owned := owned_player_ids.contains player.ea_id
  let is_required := include_players.contains player.ea_id
  let metarating := candMetarating player position
  if is_owned then
    some { player, is_owned, is_required, metarating, price := 0 }
  else if is_required then
    match player.market_price with
    | some mp => some { player, is_owned, is_required, metarating, price := mp }
    | none =>
        some { player, is_owned, is_required, metarating,
               price := player.futbin_price.getD 1000000 }
  else
    match player.market_price with
    | some mp => some { player, is_owned, is_required, metarating, price := mp }
    | none => none

/-- Embeds `SquadOptimizer.get_candidates_for_position`
(solver.py lines 35–115) over a catalogue snapshot `db` (the `players`
collection in its stored order): filter by the Mongo query, sort by
descending score, truncate to `limit + len(include_players)`, then run the
price-resolution loop. -/
def get_candidates_for_position (db : List Player) (position : String)
    (owned_player_ids : List Nat) (owned_only : Bool) (limit : Nat)
    (min_metarating : ℚ) (include_players : List Nat) : List Cand :=
  let fetched :=
    ((db.filter
        (queryMatch position min_metarating owned_only owned_player_ids include_players)).insertionSort
      (fun p q => scoreLeDesc position p q = true)).take
      (limit + include_players.length)
  fetched.filterMap (resolveCandidate owned_player_ids include_players position)

/-- Python `int()` on a (here rational-valued) float: truncation toward
zero. -/
def pyInt (q : ℚ) : ℤ := if 0 ≤ q then ⌊q⌋ else -⌊-q⌋

/-- The objective coefficient of one candidate
(solver.py lines 316–320): `int(player.get('metarating', 0) * SCALE)` with
`SCALE = 100`. -/
def objCoeff (c : Cand) : ℤ := pyInt (c.metarating * 100)

/-- The value of the CP-SAT objective `Σ coeff · x` (solver.py line 321) at
a solution whose selected candidates are `selected`. -/
def objectiveTerms (selected : List Cand) : ℤ := (selected.map objCoeff).sum

/-- Python's `str.strip` whitespace set: space, tab, newline, carriage
return, vertical tab, form feed. -/
def pySpace (c : Char) : Bool :=
  c = ' ' || c = '\t' || c = '\n' || c = '\r' || c = Char.ofNat 11 || c = Char.ofNat 12

/-- Python's `str.lower` on one character (ASCII range, which covers the
catalogue's name keys as used by the solver). -/
def pyLowerChar (c : Char) : Char :=
  if 'A' ≤ c && c ≤ 'Z' then Char.ofNat (c.toNat + 32) else c

/-- Python's `str.strip`: drop leading and trailing whitespace. -/
def pyStrip (s : String) : String :=
  String.mk (((s.data.dropWhile pySpace).reverse.dropWhile pySpace).reverse)

/-- Python's `str.lower`, character-wise. -/
def pyLower (s : String) : String := String.mk (s.data.map pyLowerChar)

/-- The normalised-name key used by the uniqueness constraints
(solver.py line 259): `player.get('name', '').strip().lower()`. -/
def normName (s : String) : String := pyLower (pyStrip s)

/-- Number of (slot, candidate) pairs whose normalised name is `n`
(the length of `player_names[n]` built in solver.py lines 256–263, counting
multiplicity across slots). -/
def nameOccurrences (candidates : List (List Player)) (n : String) : Nat :=
  candidates.flatten.countP (fun q => normName q.name = n)

/-- A lineup (the multiset of selected candidates, one per slot) satisfies
every name-uniqueness constraint the model generates
(solver.py lines 255–273): for each normalised name that is non-empty, not
`'unknown'`, and occurs at two or more (slot, candidate) pairs, the sum of
the selected `x` variables bearing it — the number of lineup members with
that normalised name — is at most 1. Quantifying over the candidates `p`
that bear the name ranges over exactly the keys of `player_names`. -/
def nameConstraintsSat (candidates : List (List Player)) (lineup : List Player) : Prop :=
  ∀ p ∈ candidates.flatten, normName p.name ≠ "" → normName p.name ≠ "unknown" →
    2 ≤ nameOccurrences candidates (normName p.name) →
    lineup.countP (fun q => normName q.name = normName p.name) ≤ 1

/-- The fields of the result dictionary built by
`SquadOptimizer._extract_solution` that the verification step touches
(solver.py lines 510–527). -/
structure ExtractResult where
  success : Bool
  status : String
  total_chemistry : Nat
  actual_chemistry : Nat
  chemistry_valid : Bool
deriving DecidableEq

/-- Embeds the tail of `SquadOptimizer._extract_solution`
(solver.py lines 510–527), applied to the extracted squad: each entry pairs
the selected player with the solver's value of its slot's
`player_chemistry` variable (stored under the `'chemistry'` key,
line 503). `actual_chemistry` re-runs the Chemistry Evaluator on the squad
(line 511); `total_chemistry` sums the solver's per-slot values (line 512);
the result is returned with `success = True` and `chemistry_valid = True`
unconditionally — no comparison of the two chemistry figures occurs. -/
def extract_solution (squadWithChem : List (Player × Nat)) (optimal : Bool) : ExtractResult :=
  { success := true
  , status := if optimal then "OPTIMAL" else "FEASIBLE"
  , total_chemistry := (squadWithChem.map (fun pc => pc.2)).sum
  , actual_chemistry := calculate_squad_chemistry (squadWithChem.map (fun pc => pc.1))
  , chemistry_valid := true }

/-! ### Helper lemmas shared by the claim theorems -/

theorem clubTable_eq_threshold : ∀ n < 12,
    clubSolverTable.getD n 0 = get_chemistry_from_threshold n clubThresholds := by
  decide

theorem leagueTable_eq_threshold : ∀ n < 23,
    leagueSolverTable.getD n 0 = get_chemistry_from_threshold n leagueThresholds := by
  decide

theorem nationTable_eq_threshold : ∀ n < 23,
    nationSolverTable.getD n 0 = get_chemistry_from_threshold n nationThresholds := by
  decide

theorem clubTable_length : clubSolverTable.length = 12 := by decide

theorem leagueTable_length : leagueSolverTable.length = 23 := by decide

theorem nationTable_length : nationSolverTable.length = 23 := by decide

theorem count_teammates_append (l₁ l₂ : List Player) (attr : Player → Option Nat)
    (t : Option Nat) (dbl : Player → Bool) :
    count_teammates (l₁ ++ l₂) attr t dbl =
      count_teammates l₁ attr t dbl + count_teammates l₂ attr t dbl := by
  induction l₁ with
  | nil => simp [count_teammates]
  | cons p rest ih => simp [count_teammates, ih]; omega

theorem solverClubCount_eq_count_teammates (lineup : List Player) (c : Nat) :
    solverClubCount lineup c =
      count_teammates lineup (fun p => p.club_ea_id) (some c) noDouble := by
  induction lineup with
  | nil => simp [solverClubCount, count_teammates]
  | cons p rest ih =>
      simp only [solverClubCount, List.map_cons, List.sum_cons, count_teammates, noDouble]
      simp only [solverClubCount] at ih
      by_cases h : p.club_ea_id = some c <;> simp [h, ih]

theorem solverLeagueCount_eq_count_teammates (lineup : List Player) (l : Nat) :
    solverLeagueCount lineup l =
      count_teammates lineup (fun p => p.league_ea_id) (some l) (fun p => p.is_hero) := by
  induction lineup with
  | nil => simp [solverLeagueCount, count_teammates]
  | cons p rest ih =>
      simp only [solverLeagueCount, List.map_cons, List.sum_cons, count_teammates]
      simp only [solverLeagueCount] at ih
      omega

theorem solverNationCount_eq_count_teammates (lineup : List Player) (n : Nat) :
    solverNationCount lineup n =
      count_teammates lineup (fun p => p.nation_ea_id) (some n) (fun p => p.is_icon) := by
  induction lineup with
  | nil => simp [solverNationCount, count_teammates]
  | cons p rest ih =>
      simp only [solverNationCount, List.map_cons, List.sum_cons, count_teammates]
      simp only [solverNationCount] at ih
      omega

theorem solverClubChem_le (candidates : List (List Player)) (lineup : List Player)
    (p : Player) :
    solverClubChem candidates lineup p ≤
      get_chemistry_from_threshold
        (count_teammates lineup (fun q => q.club_ea_id) p.club_ea_id noDouble)
        clubThresholds := by
  rcases hcl : p.club_ea_id with _ | c
  · simp [solverClubChem, hcl]
  · simp only [solverClubChem, hcl]
    split
    · rcases Nat.lt_or_ge (solverClubCount lineup c) 12 with h12 | h12
      · rw [clubTable_eq_threshold _ h12, solverClubCount_eq_count_teammates]
      · rw [List.getD_eq_default _ _ (clubTable_length ▸ h12)]
        exact Nat.zero_le _
    · exact Nat.zero_le _

theorem solverLeagueChem_le (candidates : List (List Player)) (lineup : List Player)
    (p : Player) :
    solverLeagueChem candidates lineup p ≤
      get_chemistry_from_threshold
        (count_teammates lineup (fun q => q.league_ea_id) p.league_ea_id (fun q => q.is_hero))
        leagueThresholds := by
  rcases hcl : p.league_ea_id with _ | c
  · simp [solverLeagueChem, hcl]
  · simp only [solverLeagueChem, hcl]
    split
    · rcases Nat.lt_or_ge (solverLeagueCount lineup c) 23 with h23 | h23
      · rw [leagueTable_eq_threshold _ h23, solverLeagueCount_eq_count_teammates]
      · rw [List.getD_eq_default _ _ (leagueTable_length ▸ h23)]
        exact Nat.zero_le _
    · exact Nat.zero_le _

theorem solverNationChem_le (candidates : List (List Player)) (lineup : List Player)
    (p : Player) :
    solverNationChem candidates lineup p ≤
      get_chemistry_from_threshold
        (count_teammates lineup (fun q => q.nation_ea_id) p.nation_ea_id (fun q => q.is_icon))
        nationThresholds := by
  rcases hcl : p.nation_ea_id with _ | c
  · simp [solverNationChem, hcl]
  · simp only [solverNationChem, hcl]
    split
    · rcases Nat.lt_or_ge (solverNationCount lineup c) 23 with h23 | h23
      · rw [nationTable_eq_threshold _ h23, solverNationCount_eq_count_teammates]
      · rw [List.getD_eq_default _ _ (nationTable_length ▸ h23)]
        exact Nat.zero_le _
    · exact Nat.zero_le _

theorem solverCandChem_le_player_chemistry (candidates : List (List Player))
    (lineup : List Player) (p : Player) :
    solverCandChem candidates lineup p ≤ calculate_player_chemistry p lineup := by
  unfold solverCandChem calculate_player_chemistry
  split
  · exact Nat.le_refl 3
  · exact min_le_min
      (Nat.add_le_add (Nat.add_le_add (solverClubChem_le candidates lineup p)
        (solverLeagueChem_le candidates lineup p))
        (solverNationChem_le candidates lineup p))
      (Nat.le_refl 3)

theorem solverSquadChem_le_squad_chemistry (candidates : List (List Player))
    (lineup : List Player) (hlen : lineup.length = 11) :
    solverSquadChem candidates lineup ≤ calculate_squad_chemistry lineup := by
  unfold solverSquadChem calculate_squad_chemistry
  rw [if_neg (by omega)]
  exact List.sum_le_sum
    (fun p _ => solverCandChem_le_player_chemistry candidates lineup p)

/-! ### Claim C3 -/

/-- C3: for every successful optimisation result (status OPTIMAL or FEASIBLE) —
i.e. for every selected lineup whose solver-side chemistry values satisfy the
hard constraint `total_chemistry >= min_chemistry` of solver.py line 473 —
running the reference Chemistry Evaluator on the extracted 11-player lineup
yields a squad chemistry value that is at least `min_chemistry`. -/
theorem C3_evaluator_chemistry_ge_min (candidates : List (List Player))
    (lineup : List Player) (min_chemistry : Nat) (hlen : lineup.length = 11)
    (hsolved : min_chemistry ≤ solverSquadChem candidates lineup) :
    min_chemistry ≤ calculate_squad_chemistry lineup :=
  le_trans hsolved (solverSquadChem_le_squad_chemistry candidates lineup hlen)

def c3Player (i : Nat) : Player :=
  { ea_id := i, name := toString i, club_ea_id := some 5, league_ea_id := some 7,
    nation_ea_id := some 9, is_icon := false, is_hero := false,
    market_price := some 100, futbin_price := none, metaratings := [] }

def c3Lineup : List Player := (List.range 11).map c3Player

def c3Candidates : List (List Player) := c3Lineup.map (fun p => [p])

/-- Witness for C3 at a concrete instance: eleven one-candidate slots all
sharing club 5, league 7 and nation 9 meet the hard constraint at
`min_chemistry = 33`, and the Chemistry Evaluator indeed reports ≥ 33. -/
theorem C3_witness :
    c3Lineup.length = 11 ∧ 33 ≤ solverSquadChem c3Candidates c3Lineup ∧
      33 ≤ calculate_squad_chemistry c3Lineup :=
  ⟨by decide, by decide,
    C3_evaluator_chemistry_ge_min c3Candidates c3Lineup 33 (by decide) (by decide)⟩

/-! ### Claim C5 -/

/-- C5: on its full index range, each of the solver's element-constraint
lookup tables (club 0..11, league 0..22, nation 0..22) agrees with the
Chemistry Evaluator's threshold step function applied to the same count and
the corresponding `THRESHOLDS` entry, and both table and step function are
monotone non-decreasing in the count over that range. -/
theorem C5_tables_equal_threshold_functions :
    (∀ n < 12, clubSolverTable.getD n 0 = get_chemistry_from_threshold n clubThresholds) ∧
    (∀ n < 23, leagueSolverTable.getD n 0 = get_chemistry_from_threshold n leagueThresholds) ∧
    (∀ n < 23, nationSolverTable.getD n 0 = get_chemistry_from_threshold n nationThresholds) ∧
    (∀ n < 12, ∀ m ≤ n, clubSolverTable.getD m 0 ≤ clubSolverTable.getD n 0 ∧
      get_chemistry_from_threshold m clubThresholds ≤
        get_chemistry_from_threshold n clubThresholds) ∧
    (∀ n < 23, ∀ m ≤ n, leagueSolverTable.getD m 0 ≤ leagueSolverTable.getD n 0 ∧
      get_chemistry_from_threshold m leagueThresholds ≤
        get_chemistry_from_threshold n leagueThresholds) ∧
    (∀ n < 23, ∀ m ≤ n, nationSolverTable.getD m 0 ≤ nationSolverTable.getD n 0 ∧
      get_chemistry_from_threshold m nationThresholds ≤
        get_chemistry_from_threshold n nationThresholds) :=
  ⟨clubTable_eq_threshold, leagueTable_eq_threshold, nationTable_eq_threshold,
    by decide, by decide, by decide⟩

/-- Witness for C5 at concrete counts: table/step agreement at count 4 (club),
8 (league), 5 (nation), and monotonicity from count 3 to 7 (club). -/
theorem C5_witness :
    (clubSolverTable.getD 4 0 = get_chemistry_from_threshold 4 clubThresholds) ∧
    (leagueSolverTable.getD 8 0 = get_chemistry_from_threshold 8 leagueThresholds) ∧
    (nationSolverTable.getD 5 0 = get_chemistry_from_threshold 5 nationThresholds) ∧
    (clubSolverTable.getD 3 0 ≤ clubSolverTable.getD 7 0 ∧
      get_chemistry_from_threshold 3 clubThresholds ≤
        get_chemistry_from_threshold 7 clubThresholds) :=
  ⟨C5_tables_equal_threshold_functions.1 4 (by decide),
    C5_tables_equal_threshold_functions.2.1 8 (by decide),
    C5_tables_equal_threshold_functions.2.2.1 5 (by decide),
    C5_tables_equal_threshold_functions.2.2.2.1 7 (by decide) 3 (by decide)⟩

/-! ### Claim C9 -/

/-- C9: swapping the `is_hero` flag between two members of a squad who share
the same `league_ea_id` leaves the hero-doubled league count for that league
(`count_teammates` with `count_double_for='is_hero'`) unchanged; this count is
the one every matching player sees for that league. -/
theorem C9_hero_swap_preserves_league_count (l₁ l₂ l₃ : List Player)
    (p q : Player) (L : Nat) (hp : p.league_ea_id = some L)
    (hq : q.league_ea_id = some L) :
    count_teammates
        (l₁ ++ ({ p with is_hero := q.is_hero } : Player) ::
          (l₂ ++ ({ q with is_hero := p.is_hero } : Player) :: l₃))
        (fun r => r.league_ea_id) (some L) (fun r => r.is_hero) =
      count_teammates (l₁ ++ p :: (l₂ ++ q :: l₃))
        (fun r => r.league_ea_id) (some L) (fun r => r.is_hero) := by
  simp only [count_teammates_append, count_teammates, hp, hq, if_pos rfl]
  by_cases hph : p.is_hero = true <;> by_cases hqh : q.is_hero = true <;>
    simp [hph, hqh] <;> omega

def c9Hero : Player :=
  { ea_id := 21, name := "h", club_ea_id := some 3, league_ea_id := some 40,
    nation_ea_id := some 60, is_icon := false, is_hero := true,
    market_price := some 10, futbin_price := none, metaratings := [] }

def c9Plain : Player :=
  { ea_id := 22, name := "k", club_ea_id := some 4, league_ea_id := some 40,
    nation_ea_id := some 61, is_icon := false, is_hero := false,
    market_price := some 10, futbin_price := none, metaratings := [] }

/-- Witness for C9: swapping the hero flag between a hero and a non-hero of
league 40 leaves that league's doubled count unchanged. -/
theorem C9_witness :
    count_teammates
        [{ c9Hero with is_hero := c9Plain.is_hero }, { c9Plain with is_hero := c9Hero.is_hero }]
        (fun r => r.league_ea_id) (some 40) (fun r => r.is_hero) =
      count_teammates [c9Hero, c9Plain] (fun r => r.league_ea_id) (some 40)
        (fun r => r.is_hero) :=
  C9_hero_swap_preserves_league_count [] [] [] c9Hero c9Plain 40 (by decide) (by decide)

/-! ### Claim C2 -/

def c2NullA : Player :=
  { ea_id := 31, name := "na", club_ea_id := none, league_ea_id := some 100,
    nation_ea_id := some 200, is_icon := false, is_hero := false,
    market_price := some 10, futbin_price := none, metaratings := [] }

def c2NullB : Player :=
  { ea_id := 32, name := "nb", club_ea_id := none, league_ea_id := some 101,
    nation_ea_id := some 201, is_icon := false, is_hero := false,
    market_price := some 10, futbin_price := none, metaratings := [] }

def c2Squad : List Player :=
  c2NullA :: c2NullB :: (List.range 9).map (fun i =>
    { ea_id := 33 + i, name := toString (33 + i), club_ea_id := some (10 + i),
      league_ea_id := some (110 + i), nation_ea_id := some (210 + i),
      is_icon := false, is_hero := false, market_price := some 10,
      futbin_price := none, metaratings := [] })

/-- Counterexample to C2 as stated: in an 11-player squad whose first two
members both have `club_ea_id = None`, the Chemistry Evaluator's club count
for either of them is 2 — each null-club player counts the other, because
Python's `None == None` — and the null club dimension contributes 1 chemistry
point (threshold 2 → 1) instead of the claimed 0. -/
theorem C2_counterexample :
    c2NullA.club_ea_id = none ∧ c2NullB.club_ea_id = none ∧
    count_teammates c2Squad (fun p => p.club_ea_id) c2NullA.club_ea_id noDouble = 2 ∧
    calculate_player_chemistry c2NullA c2Squad = 1 := by
  decide

theorem one_le_club_threshold (n : Nat) (h : 2 ≤ n) :
    1 ≤ get_chemistry_from_threshold n clubThresholds := by
  simp only [get_chemistry_from_threshold, clubThresholds, thresholdLoop]
  split_ifs <;> omega

theorem count_teammates_none_club (squad : List Player) :
    count_teammates squad (fun q => q.club_ea_id) none noDouble =
      squad.countP (fun q => q.club_ea_id.isNone) := by
  induction squad with
  | nil => simp [count_teammates]
  | cons p rest ih =>
      rw [List.countP_cons]
      simp only [count_teammates, noDouble, Bool.false_eq_true, if_false, ih]
      cases hcl : p.club_ea_id <;> simp [hcl] <;> omega

/-- C2 amended: a player with a null `club_ea_id` does match other players
whose `club_ea_id` is also null (`None == None` in `count_teammates`): the
club count seen by such a player equals the number of squad members with a
null club, and as soon as two such members exist a non-icon non-hero
null-club player receives at least 1 chemistry point from the club dimension
(so the dimension does not contribute 0, and two players both lacking a
club id do raise each other's club count). The analogous behaviour holds for
league and nation. -/
theorem C2_amended_null_matches_null (squad : List Player) (p : Player)
    (hnull : p.club_ea_id = none) (hicon : p.is_icon = false)
    (hhero : p.is_hero = false)
    (h2 : 2 ≤ squad.countP (fun q => q.club_ea_id.isNone)) :
    count_teammates squad (fun q => q.club_ea_id) p.club_ea_id noDouble =
      squad.countP (fun q => q.club_ea_id.isNone) ∧
    1 ≤ calculate_player_chemistry p squad := by
  rw [hnull]
  refine ⟨count_teammates_none_club squad, ?_⟩
  unfold calculate_player_chemistry
  rw [hicon, hhero]
  simp only [Bool.or_self, Bool.false_eq_true, if_false, hnull]
  have hclub : 1 ≤ get_chemistry_from_threshold
      (count_teammates squad (fun q => q.club_ea_id) none noDouble) clubThresholds :=
    one_le_club_threshold _ (by rw [count_teammates_none_club]; exact h2)
  omega

/-- Witness for C2 (amended) at the concrete squad of the counterexample. -/
theorem C2_witness :
    count_teammates c2Squad (fun q => q.club_ea_id) c2NullA.club_ea_id noDouble =
      c2Squad.countP (fun q => q.club_ea_id.isNone) ∧
    1 ≤ calculate_player_chemistry c2NullA c2Squad :=
  C2_amended_null_matches_null c2Squad c2NullA (by decide) (by decide) (by decide)
    (by decide)

/-! ### Claim C10 -/

theorem zero_not_mem_activeIds (candidates : List (List Player))
    (attr : Player → Option Nat) : 0 ∉ activeIds candidates attr := by
  intro hmem
  rw [activeIds, List.mem_filterMap] at hmem
  rcases hmem with ⟨p, _, hp⟩
  rcases h : attr p with _ | c
  · simp [h] at hp
  · by_cases hc : c = 0
    · subst hc
      simp [h] at hp
    · simp [h, hc] at hp

theorem count_teammates_some_eq_countP (squad : List Player)
    (attr : Player → Option Nat) (v : Nat) :
    count_teammates squad attr (some v) noDouble =
      squad.countP (fun q => attr q == some v) := by
  induction squad with
  | nil => simp [count_teammates]
  | cons p rest ih =>
      rw [List.countP_cons]
      simp only [count_teammates, noDouble, Bool.false_eq_true, if_false, ih]
      by_cases h : attr p = some v <;> simp [h] <;> omega

/-- C10: in the solver's chemistry encoding a candidate whose `club_ea_id`
(resp. `league_ea_id`, `nation_ea_id`) equals 0 is treated exactly like one
with a missing affiliation — the id 0 is never a key of the count-variable
dictionaries (`all_clubs` etc. exclude falsy ids), and that candidate's
points variable is fixed to 0 — even though the reference evaluator's
`count_teammates` counts squad members whose affiliation equals 0 as matching
each other (the count with target 0 is the number of members carrying 0). -/
theorem C10_zero_id_like_missing (candidates : List (List Player))
    (lineup : List Player) (p : Player) (squad : List Player) :
    (p.club_ea_id = some 0 →
      0 ∉ allClubs candidates ∧ solverClubChem candidates lineup p = 0) ∧
    (p.league_ea_id = some 0 →
      0 ∉ allLeagues candidates ∧ solverLeagueChem candidates lineup p = 0) ∧
    (p.nation_ea_id = some 0 →
      0 ∉ allNations candidates ∧ solverNationChem candidates lineup p = 0) ∧
    count_teammates squad (fun q => q.club_ea_id) (some 0) noDouble =
      squad.countP (fun q => q.club_ea_id == some 0) := by
  refine ⟨fun hp => ⟨zero_not_mem_activeIds _ _, ?_⟩,
    fun hp => ⟨zero_not_mem_activeIds _ _, ?_⟩,
    fun hp => ⟨zero_not_mem_activeIds _ _, ?_⟩,
    count_teammates_some_eq_countP squad _ 0⟩
  · simp [solverClubChem, hp]
  · simp [solverLeagueChem, hp]
  · simp [solverNationChem, hp]

def c10Zero : Player :=
  { ea_id := 41, name := "z", club_ea_id := some 0, league_ea_id := some 0,
    nation_ea_id := some 0, is_icon := false, is_hero := false,
    market_price := some 10, futbin_price := none, metaratings := [] }

def c10Mate : Player := { c10Zero with ea_id := 42, name := "z2" }

/-- Witness for C10 at a concrete candidate pool: a player with all three
affiliation ids 0 gets solver points 0 in each dimension and 0 is absent
from every count-variable key set, while the evaluator counts the two
0-affiliated squad members as 2 matching teammates. -/
theorem C10_witness :
    (0 ∉ allClubs [[c10Zero], [c10Mate]] ∧
      solverClubChem [[c10Zero], [c10Mate]] [c10Zero, c10Mate] c10Zero = 0) ∧
    (0 ∉ allLeagues [[c10Zero], [c10Mate]] ∧
      solverLeagueChem [[c10Zero], [c10Mate]] [c10Zero, c10Mate] c10Zero = 0) ∧
    (0 ∉ allNations [[c10Zero], [c10Mate]] ∧
      solverNationChem [[c10Zero], [c10Mate]] [c10Zero, c10Mate] c10Zero = 0) ∧
    count_teammates [c10Zero, c10Mate] (fun q => q.club_ea_id) (some 0) noDouble =
      ([c10Zero, c10Mate].countP (fun q => q.club_ea_id == some 0)) :=
  ⟨(C10_zero_id_like_missing [[c10Zero], [c10Mate]] [c10Zero, c10Mate] c10Zero
      [c10Zero, c10Mate]).1 (by decide),
    (C10_zero_id_like_missing [[c10Zero], [c10Mate]] [c10Zero, c10Mate] c10Zero
      [c10Zero, c10Mate]).2.1 (by decide),
    (C10_zero_id_like_missing [[c10Zero], [c10Mate]] [c10Zero, c10Mate] c10Zero
      [c10Zero, c10Mate]).2.2.1 (by decide),
    (C10_zero_id_like_missing [[c10Zero], [c10Mate]] [c10Zero, c10Mate] c10Zero
      [c10Zero, c10Mate]).2.2.2⟩

/-! ### Claim C1 -/

def c1Player (i : Nat) : Player :=
  { ea_id := 50 + i, name := toString (50 + i), club_ea_id := some 0,
    league_ea_id := some 0, nation_ea_id := some 0, is_icon := false,
    is_hero := false, market_price := some 0, futbin_price := none,
    metaratings := [] }

def c1Squad : List Player := (List.range 11).map c1Player

def c1Candidates : List (List Player) := c1Squad.map (fun p => [p])

def c1Result : ExtractResult :=
  extract_solution (c1Squad.map (fun p => (p, solverCandChem c1Candidates c1Squad p))) true

/-- C1: exhibits the missing post-solve verification at a reachable solved
instance. Eleven one-candidate slots whose players all carry affiliation
ids 0 satisfy the model's hard chemistry constraint with `min_chemistry = 0`
(every slot chemistry variable is 0), yet the reference Chemistry Evaluator
scores the extracted lineup 33. `_extract_solution` computes both figures but
returns `success = True` and `chemistry_valid = True` without comparing them:
the discrepancy (`actual_chemistry = 33 ≠ 0 = total_chemistry`) is returned
as a success result instead of being raised as a fatal error. -/
theorem C1_mismatch_not_raised :
    (∀ p ∈ c1Squad, solverCandChem c1Candidates c1Squad p = 0) ∧
    solverSquadChem c1Candidates c1Squad = 0 ∧
    calculate_squad_chemistry c1Squad = 33 ∧
    c1Result.success = true ∧
    c1Result.chemistry_valid = true ∧
    c1Result.actual_chemistry = 33 ∧
    c1Result.total_chemistry = 0 ∧
    c1Result.actual_chemistry ≠ c1Result.total_chemistry := by
  decide

/-! ### Claim C8 -/

/-- C8: the price-resolution filter of the Candidate Provider
(solver.py lines 94–114). An owned player is accepted at effective price 0;
a non-owned required player is accepted at its market price when present and
otherwise at the fallback price (`futbin_price` defaulting to 1 000 000); a
non-owned non-required player is accepted exactly when a market price is
present, at that price, and rejected when it is absent. -/
theorem C8_price_resolution (owned_player_ids include_players : List Nat)
    (position : String) (player : Player) :
    (player.ea_id ∈ owned_player_ids →
      ∃ c, resolveCandidate owned_player_ids include_players position player = some c ∧
        c.price = 0) ∧
    (player.ea_id ∉ owned_player_ids → player.ea_id ∈ include_players →
      (∀ mp, player.market_price = some mp →
        ∃ c, resolveCandidate owned_player_ids include_players position player = some c ∧
          c.price = mp) ∧
      (player.market_price = none →
        ∃ c, resolveCandidate owned_player_ids include_players position player = some c ∧
          c.price = player.futbin_price.getD 1000000)) ∧
    (player.ea_id ∉ owned_player_ids → player.ea_id ∉ include_players →
      (∀ mp, player.market_price = some mp →
        ∃ c, resolveCandidate owned_player_ids include_players position player = some c ∧
          c.price = mp) ∧
      (player.market_price = none →
        resolveCandidate owned_player_ids include_players position player = none)) := by
  refine ⟨fun how => ?_, fun how hreq => ⟨fun mp hmp => ?_, fun hmp => ?_⟩,
    fun how hreq => ⟨fun mp hmp => ?_, fun hmp => ?_⟩⟩ <;>
    simp [resolveCandidate, *]

def c8Owned : Player :=
  { ea_id := 61, name := "o", club_ea_id := some 1, league_ea_id := some 1,
    nation_ea_id := some 1, is_icon := false, is_hero := false,
    market_price := some 500, futbin_price := none, metaratings := [] }

def c8ReqExtinct : Player :=
  { c8Owned with
      ea_id := 62, name := "r", market_price := none, futbin_price := some 777 }

def c8FreeExtinct : Player :=
  { c8Owned with ea_id := 63, name := "f", market_price := none }

/-- Witness for C8 on three concrete players: an owned one resolves to
price 0 despite a market price of 500; a required extinct one resolves to its
futbin fallback 777; a non-required extinct one is rejected. -/
theorem C8_witness :
    (∃ c, resolveCandidate [61] [62] "ST" c8Owned = some c ∧ c.price = 0) ∧
    (∃ c, resolveCandidate [61] [62] "ST" c8ReqExtinct = some c ∧
      c.price = c8ReqExtinct.futbin_price.getD 1000000) ∧
    resolveCandidate [61] [62] "ST" c8FreeExtinct = none :=
  ⟨(C8_price_resolution [61] [62] "ST" c8Owned).1 (by decide),
    ((C8_price_resolution [61] [62] "ST" c8ReqExtinct).2.1 (by decide) (by decide)).2
      (by decide),
    ((C8_price_resolution [61] [62] "ST" c8FreeExtinct).2.2 (by decide) (by decide)).2
      (by decide)⟩

/-! ### Claim C7 -/

theorem pyInt_eq_floor (q : ℚ) (h : 0 ≤ q) : pyInt q = ⌊q⌋ := if_pos h

def c7Cand : Cand :=
  { player :=
      { ea_id := 71, name := "t", club_ea_id := some 1, league_ea_id := some 1,
        nation_ea_id := some 1, is_icon := false, is_hero := false,
        market_price := some 100, futbin_price := none,
        metaratings := [("ST", some (1999 / 1000 : ℚ))] },
    is_owned := false, is_required := false, metarating := 1999 / 1000,
    price := 100 }

/-- Counterexample to C7 as stated: for a candidate with position score
1.999, the objective coefficient computed by the code,
`int(metarating * 100)`, is 199 (truncation), while the score multiplied by
100 and rounded to the nearest integer is 200 — so the coefficient does not
equal the rounded value and the third decimal is dropped rather than
rounded. -/
theorem C7_counterexample :
    objCoeff c7Cand = 199 ∧ (round (c7Cand.metarating * 100) : ℤ) = 200 ∧
    objCoeff c7Cand ≠ round (c7Cand.metarating * 100) := by
  norm_num [objCoeff, c7Cand, pyInt, round_eq]

/-- C7 amended: the objective maximised by the solver is
`Σ int(score · 100) · x` where `int` is Python truncation toward zero — for
the non-negative scores of the data model this is the floor of `score · 100`,
not rounding to the nearest integer; only fully-written two-decimal scores
are preserved exactly. -/
theorem C7_amended_objective_truncates (selected : List Cand)
    (h : ∀ c ∈ selected, 0 ≤ c.metarating) :
    objectiveTerms selected = (selected.map (fun c => ⌊c.metarating * 100⌋)).sum :=
  congrArg List.sum (List.map_congr_left (fun c hc =>
    pyInt_eq_floor _ (mul_nonneg (h c hc) (by norm_num))))

def c7Two : Cand := { c7Cand with metarating := 2 }

/-- Witness for C7 (amended) on a one-candidate selection with score 2. -/
theorem C7_witness :
    objectiveTerms [c7Two] = ([c7Two].map (fun c => ⌊c.metarating * 100⌋)).sum :=
  C7_amended_objective_truncates [c7Two]
    (by intro c hc; simp at hc; subst hc; norm_num [c7Two, c7Cand])

/-! ### Claim C4 -/

theorem countP_lineup_le_flatten (pred : Player → Bool)
    (candidates : List (List Player)) (lineup : List Player)
    (hsel : List.Forall₂ (fun cs q => q ∈ cs) candidates lineup) :
    lineup.countP pred ≤ candidates.flatten.countP pred := by
  induction hsel with
  | nil => simp
  | cons hq hrest ih =>
      rw [List.flatten_cons, List.countP_append, List.countP_cons]
      rename_i cs q cands lins
      by_cases hp : pred q
      · have h1 : 0 < cs.countP pred := List.countP_pos_iff.mpr ⟨q, hq, hp⟩
        simp only [hp, if_pos]
        omega
      · simp only [hp, if_neg, Bool.false_eq_true, not_false_eq_true]
        omega

instance (candidates : List (List Player)) (lineup : List Player) :
    Decidable (nameConstraintsSat candidates lineup) := by
  unfold nameConstraintsSat
  infer_instance

def c4U1 : Player :=
  { ea_id := 81, name := " Unknown", club_ea_id := some 1, league_ea_id := some 1,
    nation_ea_id := some 1, is_icon := false, is_hero := false,
    market_price := some 10, futbin_price := none, metaratings := [] }

def c4U2 : Player := { c4U1 with ea_id := 82, name := "UNKNOWN" }

def c4Others : List Player := (List.range 9).map (fun i =>
  { ea_id := 83 + i, name := "pl" ++ toString i, club_ea_id := some 1,
    league_ea_id := some 1, nation_ea_id := some 1, is_icon := false,
    is_hero := false, market_price := some 10, futbin_price := none,
    metaratings := [] })

def c4Candidates : List (List Player) := [c4U1] :: [c4U2] :: c4Others.map (fun p => [p])

def c4Lineup : List Player := c4U1 :: c4U2 :: c4Others

/-- Counterexample to C4 as stated: the normalised name `"unknown"` is
non-empty and is shared by candidates at two (slot, candidate) positions, yet
the lineup that selects both (a valid one-candidate-per-slot selection)
satisfies every name-uniqueness constraint the model generates — names equal
to `'unknown'` are skipped when the constraints are built
(solver.py line 260), so the model does not forbid selecting both. -/
theorem C4_counterexample :
    List.Forall₂ (fun cs q => q ∈ cs) c4Candidates c4Lineup ∧
    nameConstraintsSat c4Candidates c4Lineup ∧
    normName c4U1.name = "unknown" ∧ normName c4U1.name ≠ "" ∧
    nameOccurrences c4Candidates (normName c4U1.name) = 2 ∧
    c4Lineup.countP (fun q => normName q.name = normName c4U1.name) = 2 := by
  decide

/-- C4 amended: on every returned lineup, for every normalised non-empty
name other than `'unknown'` shared by candidates at multiple
(slot, candidate) positions, the model forbids selecting more than one
player bearing it — any selection satisfying the generated name constraints
has at most one lineup member with that normalised name (names normalising
to the placeholder `'unknown'` are exempt). -/
theorem C4_amended_name_uniqueness (candidates : List (List Player))
    (lineup : List Player)
    (hsel : List.Forall₂ (fun cs q => q ∈ cs) candidates lineup)
    (hsat : nameConstraintsSat candidates lineup) :
    ∀ n, n ≠ "" → n ≠ "unknown" →
      lineup.countP (fun q => normName q.name = n) ≤ 1 := by
  intro n hne hnu
  by_cases h2 : 2 ≤ lineup.countP (fun q => normName q.name = n)
  · have hocc : 2 ≤ nameOccurrences candidates n :=
      le_trans h2 (countP_lineup_le_flatten _ candidates lineup hsel)
    have hex : ∃ p ∈ candidates.flatten, normName p.name = n := by
      have hpos : 0 < candidates.flatten.countP (fun q => normName q.name = n) := by
        unfold nameOccurrences at hocc
        omega
      rcases List.countP_pos_iff.mp hpos with ⟨p, hpm, hpp⟩
      exact ⟨p, hpm, of_decide_eq_true hpp⟩
    rcases hex with ⟨p, hpmem, hpn⟩
    have hle := hsat p hpmem (hpn ▸ hne) (hpn ▸ hnu) (hpn ▸ hocc)
    rw [hpn] at hle
    exact hle
  · omega

/-- Witness for C4 (amended) at the concrete candidate pool of the
counterexample: the name `"pl3"` occurs once and at most one selected player
bears it. -/
theorem C4_witness :
    c4Lineup.countP (fun q => normName q.name = "pl3") ≤ 1 :=
  C4_amended_name_uniqueness c4Candidates c4Lineup (by decide) (by decide) "pl3"
    (by decide) (by decide)

/-! ### Claim C6 -/

theorem scoreLeDesc_total (position : String) (p q : Player) :
    scoreLeDesc position p q = true ∨ scoreLeDesc position q p = true := by
  unfold scoreLeDesc
  rcases hp : scoreOf p position with _ | a <;>
    rcases hq : scoreOf q position with _ | b <;> simp
  exact le_total b a

theorem scoreLeDesc_trans (position : String) (a b c : Player)
    (hab : scoreLeDesc position a b = true) (hbc : scoreLeDesc position b c = true) :
    scoreLeDesc position a c = true := by
  unfold scoreLeDesc at *
  rcases ha : scoreOf a position with _ | x <;> rcases hb : scoreOf b position with _ | y <;>
    rcases hc : scoreOf c position with _ | z <;> simp_all
  exact le_trans hbc hab

theorem resolveCandidate_player (o i : List Nat) (pos : String) (p : Player)
    (c : Cand) (h : resolveCandidate o i pos p = some c) : c.player = p := by
  simp only [resolveCandidate] at h
  split at h
  · obtain rfl := Option.some.inj h
    rfl
  · split at h
    · split at h
      · obtain rfl := Option.some.inj h
        rfl
      · obtain rfl := Option.some.inj h
        rfl
    · split at h
      · obtain rfl := Option.some.inj h
        rfl
      · exact Option.noConfusion h

theorem baseQuery_cases (position : String) (min_metarating : ℚ) (owned_only : Bool)
    (owned_player_ids : List Nat) (p : Player)
    (h : baseQuery position min_metarating owned_only owned_player_ids p = true) :
    (∃ sc, scoreOf p position = some sc ∧ max min_metarating (1 / 100) ≤ sc) ∧
      (owned_only = true → p.ea_id ∈ owned_player_ids) := by
  unfold baseQuery at h
  rw [Bool.and_eq_true] at h
  obtain ⟨h1, h2⟩ := h
  constructor
  · unfold scoreGate at h1
    rcases hsc : scoreOf p position with _ | sc <;> rw [hsc] at h1
    · exact absurd h1 (by simp)
    · exact ⟨sc, rfl, of_decide_eq_true h1⟩
  · intro hoo
    rw [hoo] at h2
    simp only [Bool.not_true, Bool.false_or] at h2
    exact List.elem_iff.mp h2

theorem queryMatch_cases (position : String) (min_metarating : ℚ) (owned_only : Bool)
    (owned_player_ids include_players : List Nat) (p : Player)
    (h : queryMatch position min_metarating owned_only owned_player_ids include_players p
      = true) :
    ((∃ sc, scoreOf p position = some sc ∧ max min_metarating (1 / 100) ≤ sc) ∧
      (owned_only = true → p.ea_id ∈ owned_player_ids)) ∨
    ((p.metaratings.lookup position).isSome ∧ p.ea_id ∈ include_players) := by
  unfold queryMatch at h
  split at h
  · exact Or.inl (baseQuery_cases position min_metarating owned_only owned_player_ids p h)
  · rw [Bool.or_eq_true] at h
    rcases h with h | h
    · exact Or.inl (baseQuery_cases position min_metarating owned_only owned_player_ids p h)
    · right
      rw [Bool.and_eq_true] at h
      exact ⟨h.1, List.elem_iff.mp h.2⟩

/-- C6 amended: for every slot position `P`, the Candidate Provider returns a
list of at most `candidate_limit + |include_set|` players; every returned
player either passed the base query (a score entry for `P` at least
`max(min_rating, 0.01)`, and ownership when `owned_only` is set) or is a
required player with a metarating entry for `P` (whose score may be 0 or
absent); and the list is sorted by descending position-specific score
(missing scores last). The relative order of equal scores is whatever order
the store returns — the query adds no secondary sort key — so ties are not
guaranteed to be broken by ascending `ea_id`. -/
theorem C6_candidate_provider_contract (db : List Player) (position : String)
    (owned_player_ids : List Nat) (owned_only : Bool) (limit : Nat)
    (min_metarating : ℚ) (include_players : List Nat) :
    (get_candidates_for_position db position owned_player_ids owned_only limit
        min_metarating include_players).length ≤ limit + include_players.length ∧
    (∀ c ∈ get_candidates_for_position db position owned_player_ids owned_only limit
        min_metarating include_players,
      ((∃ sc, scoreOf c.player position = some sc ∧ max min_metarating (1 / 100) ≤ sc) ∧
        (owned_only = true → c.player.ea_id ∈ owned_player_ids)) ∨
      ((c.player.metaratings.lookup position).isSome ∧
        c.player.ea_id ∈ include_players)) ∧
    List.Pairwise (fun c d => scoreLeDesc position c.player d.player = true)
      (get_candidates_for_position db position owned_player_ids owned_only limit
        min_metarating include_players) := by
  refine ⟨?_, ?_, ?_⟩
  · unfold get_candidates_for_position
    exact le_trans (List.length_filterMap_le _ _) (List.length_take_le _ _)
  · intro c hc
    unfold get_candidates_for_position at hc
    rw [List.mem_filterMap] at hc
    rcases hc with ⟨p, hpmem, hres⟩
    have hsortmem : p ∈ (db.filter (queryMatch position min_metarating owned_only
        owned_player_ids include_players)).insertionSort
        (fun p q => scoreLeDesc position p q = true) :=
      (List.take_sublist _ _).subset hpmem
    have hfiltmem : p ∈ db.filter (queryMatch position min_metarating owned_only
        owned_player_ids include_players) :=
      (List.perm_insertionSort _ _).mem_iff.mp hsortmem
    have hq := (List.mem_filter.mp hfiltmem).2
    rw [resolveCandidate_player _ _ _ _ _ hres]
    exact queryMatch_cases position min_metarating owned_only owned_player_ids
      include_players p hq
  · unfold get_candidates_for_position
    have hsorted : List.Pairwise (fun p q => scoreLeDesc position p q = true)
        ((db.filter (queryMatch position min_metarating owned_only owned_player_ids
          include_players)).insertionSort (fun p q => scoreLeDesc position p q = true)) :=
      @List.sorted_insertionSort Player (fun p q => scoreLeDesc position p q = true) _
        ⟨fun a b => scoreLeDesc_total position a b⟩
        ⟨fun a b c => scoreLeDesc_trans position a b c⟩ _
    have htake := List.Pairwise.sublist
      (List.take_sublist (limit + include_players.length) _) hsorted
    refine List.pairwise_filterMap.mpr (htake.imp ?_)
    intro p p' hpp' c hc c' hc'
    rw [Option.mem_def] at hc hc'
    rw [resolveCandidate_player _ _ _ _ _ hc, resolveCandidate_player _ _ _ _ _ hc']
    exact hpp'

def c6B : Player :=
  { ea_id := 2, name := "B", club_ea_id := some 1, league_ea_id := some 1,
    nation_ea_id := some 1, is_icon := false, is_hero := false,
    market_price := some 100, futbin_price := none,
    metaratings := [("ST", some (5 : ℚ))] }

def c6A : Player := { c6B with ea_id := 1, name := "A" }

def c6R : Player :=
  { c6B with
      ea_id := 5, name := "R", market_price := some 50,
      metaratings := [("ST", some (0 : ℚ))] }

def c6Db : List Player := [c6B, c6A, c6R]

def c6Result : List Cand := get_candidates_for_position c6Db "ST" [] false 10 0 [5]

def c6CandB : Cand :=
  { player := c6B, is_owned := false, is_required := false, metarating := 5, price := 100 }

def c6CandA : Cand :=
  { player := c6A, is_owned := false, is_required := false, metarating := 5, price := 100 }

def c6CandR : Cand :=
  { player := c6R, is_owned := false, is_required := true, metarating := 0, price := 50 }

/-- Modelled from the spec's claimed ordering for C6: primary descending
position-specific score, secondary ascending `ea_id`; the claim also asserts
each returned player is eligible (a positive score for the position). -/
def specClaimedOrder (c d : Cand) : Prop :=
  d.metarating < c.metarating ∨
    (c.metarating = d.metarating ∧ c.player.ea_id ≤ d.player.ea_id)

theorem c6Result_eval : c6Result = [c6CandB, c6CandA, c6CandR] := by
  norm_num [c6Result, c6Db, get_candidates_for_position, queryMatch, baseQuery, scoreGate,
    scoreOf, scoreLeDesc, resolveCandidate, candMetarating, List.insertionSort,
    List.orderedInsert, c6B, c6A, c6R, List.lookup, List.filterMap_cons, List.contains,
    c6CandB, c6CandA, c6CandR]

/-- Counterexample to C6 as stated: on a catalogue holding two score-5
players stored in ea_id order (2, 1) and a required player whose `ST` score
is 0, the provider returns them as (ea 2, score 5), (ea 1, score 5),
(ea 5, score 0): the two tied players are not in ascending `ea_id` order (the
query has no secondary sort key), and the required player is returned even
though its position score is not positive (the `$or` branch only requires
the `metaratings.ST` key to exist). -/
theorem C6_counterexample :
    c6Result.map (fun c => (c.player.ea_id, c.metarating)) = [(2, 5), (1, 5), (5, 0)] ∧
    ¬ List.Pairwise specClaimedOrder c6Result ∧
    ∃ c ∈ c6Result, ¬ 0 < c.metarating := by
  refine ⟨?_, ?_, ?_⟩
  · rw [c6Result_eval]
    norm_num [c6CandB, c6CandA, c6CandR, c6B, c6A, c6R]
  · rw [c6Result_eval]
    intro hpw
    rcases List.pairwise_cons.mp hpw with ⟨hB, _⟩
    rcases hB c6CandA (by simp) with hlt | ⟨heq, hle⟩
    · norm_num [c6CandB, c6CandA] at hlt
    · norm_num [c6CandB, c6CandA, c6B, c6A] at hle
  · exact ⟨c6CandR, by rw [c6Result_eval]; simp, by norm_num [c6CandR]⟩

def c6WDb : List Player := [c6B]

def c6WResult : List Cand := get_candidates_for_position c6WDb "ST" [] false 10 0 []

theorem c6WResult_eval : c6WResult = [c6CandB] := by
  norm_num [c6WResult, c6WDb, get_candidates_for_position, queryMatch, baseQuery, scoreGate,
    scoreOf, scoreLeDesc, resolveCandidate, candMetarating, List.insertionSort,
    List.orderedInsert, c6B, List.lookup, List.filterMap_cons, List.contains, c6CandB]

/-- Witness for C6 (amended) on a one-player catalogue. -/
theorem C6_witness :
    c6WResult.length ≤ 10 + 0 ∧
    (((∃ sc, scoreOf c6CandB.player "ST" = some sc ∧ max (0 : ℚ) (1 / 100) ≤ sc) ∧
        (false = true → c6CandB.player.ea_id ∈ ([] : List Nat))) ∨
      ((c6CandB.player.metaratings.lookup "ST").isSome ∧
        c6CandB.player.ea_id ∈ ([] : List Nat))) ∧
    List.Pairwise (fun c d => scoreLeDesc "ST" c.player d.player = true) c6WResult :=
  ⟨by
      have h := (C6_candidate_provider_contract c6WDb "ST" [] false 10 0 []).1
      simpa [c6WResult] using h,
    (C6_candidate_provider_contract c6WDb "ST" [] false 10 0 []).2.1 c6CandB
      (by rw [show get_candidates_for_position c6WDb "ST" [] false 10 0 [] = c6WResult
            from rfl, c6WResult_eval]; simp),
    by
      have h := (C6_candidate_provider_contract c6WDb "ST" [] false 10 0 []).2.2
      simpa [c6WResult] using h⟩
